import Mathlib

/-!
Verification of the SAP automation repository's session broker,
positional label extractor, table preprocessor and spreadsheet merger.

The Lean definitions below are shallow embeddings of the Python code in
`sap_scripting_python_automation/utils/`; each definition's doc comment
names the source function and lines it is translated from.  Python string
primitives (`str.strip`, `str.split`, `int`, substring test) are modelled
on `List Char` with structural recursion so that every definition is
executable by `decide`/`rfl`.
-/

namespace SapAuto

/-- Characters treated as whitespace by Python's `str.strip()` (ASCII range). -/
def isPySpace (c : Char) : Bool :=
  c == ' ' || c == '\t' || c == '\n' || c == '\r' || c == '\x0b' || c == '\x0c'

/-- Drop characters satisfying `p` from both ends of a character list. -/
def stripList (p : Char → Bool) (l : List Char) : List Char :=
  ((l.dropWhile p).reverse.dropWhile p).reverse

/-- Python `s.strip()` (no argument): strip whitespace from both ends. -/
def pyStrip (s : String) : String :=
  ⟨stripList isPySpace s.data⟩

/-- Python `s.strip(chars)`: strip any of the given characters from both ends. -/
def pyStripChars (cs : String) (s : String) : String :=
  ⟨stripList (fun c => cs.data.contains c) s.data⟩

/-- Python `s.split(sep)` for a one-character separator, on character lists.
`"".split(sep)` is `[""]`, matching Python. -/
def splitChar (sep : Char) : List Char → List (List Char)
  | [] => [[]]
  | c :: rest =>
    let r := splitChar sep rest
    if c == sep then [] :: r
    else
      match r with
      | [] => [[c]]
      | h :: t => (c :: h) :: t

/-- Value of a non-empty all-digit character list, `none` otherwise. -/
def digitsVal (l : List Char) : Option Nat :=
  if l ≠ [] ∧ l.all Char.isDigit then
    some (l.foldl (fun a c => 10 * a + (c.toNat - 48)) 0)
  else none

/-- Python `int(str)` on a character list: optional surrounding whitespace,
optional sign, then decimal digits (digit-group underscores are not modelled;
no input in this development uses them). `none` models `int` raising. -/
def pyIntChars (l : List Char) : Option Int :=
  match stripList isPySpace l with
  | '+' :: rest => (digitsVal rest).map Int.ofNat
  | '-' :: rest => (digitsVal rest).map (fun n => -(n : Int))
  | rest => (digitsVal rest).map Int.ofNat

/-- Python `int(s)` on a string. -/
def pyInt (s : String) : Option Int :=
  pyIntChars s.data

/-- Python `sub in s` substring test, on character lists. -/
def isSubListOf (pat : List Char) : List Char → Bool
  | [] => pat.isEmpty
  | c :: rest => pat.isPrefixOf (c :: rest) || isSubListOf pat rest

/-- Python `sub in s` substring test on strings. -/
def strContains (s sub : String) : Bool :=
  isSubListOf sub.data s.data

/-! ## Session broker (`utils/sap_connection.py`) -/

/-- The attributes `is_session_idle` reads from `session.Info`
(lines 75-77 of `sap_connection.py`). -/
structure SessionInfo where
  transaction : String
  systemName : String
  user : String
deriving DecidableEq, Repr

/-- A remote SAP session handle.  `info = none` models the attribute
reads of `session.Info` raising a COM fault. -/
structure RemoteSession where
  info : Option SessionInfo
deriving DecidableEq, Repr

/-- The home-screen transaction codes of `sap_connection.py` line 81. -/
def idleSentinels : List String := ["SESSION_MANAGER", "SMEN", "S000"]

/-- `is_session_idle` (`sap_connection.py` lines 62-90): reads the session's
transaction code; idle iff it is empty (Python falsy) or its stripped form is
one of the sentinels; any fault while reading attributes yields `False`. -/
def is_session_idle (s : RemoteSession) : Bool :=
  match s.info with
  | none => false
  | some i => i.transaction == "" || idleSentinels.contains (pyStrip i.transaction)

/-- The scripting engine: a list of connections, each a list of sessions
(`application.Children(i).Children(j)`). -/
structure ScriptingEngine where
  connections : List (List RemoteSession)
deriving DecidableEq, Repr

/-- `get_sap_sessions` (`sap_connection.py` lines 27-60): `none` models
`GetObject("SAPGUI")` raising (caught, returns `[]`); otherwise the first
session (`Children(0)`) of each non-empty connection, in connection order. -/
def get_sap_sessions (eng : Option ScriptingEngine) : List RemoteSession :=
  match eng with
  | none => []
  | some e => e.connections.filterMap List.head?

/-- Observable external effects of `connect_to_idle_sap`:
session listing, the `launch_sap()` call, `time.sleep`, and
`bring_sap_to_front`. -/
inductive BrokerEvent where
  | listSessionsEv
  | launchEv
  | sleepEv (seconds : Nat)
  | foregroundEv
deriving DecidableEq, Repr

/-- Environment of one `connect_to_idle_sap` call: the engine state at the
first listing, the behaviour of `launch_sap()` (`none` models it raising,
caught by the surrounding `try`), and the engine state at the re-listing. -/
structure BrokerEnv where
  engine1 : Option ScriptingEngine
  launchResult : Option Bool
  engine2 : Option ScriptingEngine
deriving DecidableEq, Repr

/-- The `for ... if is_session_idle(session): return session` loops of
`connect_to_idle_sap`. -/
def firstIdle (sessions : List RemoteSession) : Option RemoteSession :=
  sessions.find? is_session_idle

/-- `connect_to_idle_sap` (`sap_connection.py` lines 115-156), with its
trace of external effects: list sessions, return the first idle one
(after foregrounding); otherwise call `launch_sap()` once; on `True`,
sleep 5 seconds, re-list once and retry once; on `False` or a raise,
return `None` immediately. -/
def connect_to_idle_sap (env : BrokerEnv) : Option RemoteSession × List BrokerEvent :=
  match firstIdle (get_sap_sessions env.engine1) with
  | some s => (some s, [BrokerEvent.listSessionsEv, BrokerEvent.foregroundEv])
  | none =>
    match env.launchResult with
    | some true =>
      match firstIdle (get_sap_sessions env.engine2) with
      | some s =>
        (some s, [BrokerEvent.listSessionsEv, BrokerEvent.launchEv,
                  BrokerEvent.sleepEv 5, BrokerEvent.listSessionsEv,
                  BrokerEvent.foregroundEv])
      | none =>
        (none, [BrokerEvent.listSessionsEv, BrokerEvent.launchEv,
                BrokerEvent.sleepEv 5, BrokerEvent.listSessionsEv])
    | some false => (none, [BrokerEvent.listSessionsEv, BrokerEvent.launchEv])
    | none => (none, [BrokerEvent.listSessionsEv, BrokerEvent.launchEv])

/-! ## Positional label extractor (`utils/sap_labels_table_extractor.py`) -/

/-- A UI element of the user area: its identifier and the five candidate
text attributes probed by `extract_text` (absence of an attribute is
`none`, modelling `hasattr` returning `False`). -/
structure UIElement where
  id : String
  textAttr : Option String
  tooltip : Option String
  value : Option String
  caption : Option String
  description : Option String
deriving DecidableEq, Repr

/-- Return value of `extract_text` when every candidate attribute is
empty or absent (`sap_labels_table_extractor.py` line 36). -/
def noTextMarker : String := "<No Text Found>"

/-- `extract_text` (`sap_labels_table_extractor.py` lines 15-36): the
first non-empty stripped value among Text, Tooltip, Value, Caption,
Description, else the `"<No Text Found>"` marker. -/
def extract_text (e : UIElement) : String :=
  (([e.textAttr, e.tooltip, e.value, e.caption, e.description]).findSome?
    (fun a => a.bind (fun v => if pyStrip v == "" then none else some (pyStrip v)))).getD
    noTextMarker

/-- One harvested label cell (`{'Row': ..., 'Column': ..., 'Text': ...}`,
`sap_labels_table_extractor.py` line 69). -/
structure LabelCell where
  row : Int
  column : Int
  text : String
deriving DecidableEq, Repr

/-- Coordinate parsing of `extract_labels` lines 62-68:
`parts = label_id.split("[")[-1].split(",")`; when there are exactly two
parts, `int(parts[0])` is the column and `int(parts[1].strip("]"))` the
row — `none` models `int` raising on non-numeric parts, which propagates
to the enclosing `try`; otherwise the sentinel `(-1, -1)`. -/
def parseCoords (id : String) : Option (Int × Int) :=
  let parts := splitChar ',' ((splitChar '[' id.data).getLastD [])
  if h : parts.length = 2 then
    match pyIntChars (parts.get ⟨0, by omega⟩),
          pyIntChars (stripList (fun c => c == ']') (parts.get ⟨1, by omega⟩)) with
    | some c, some r => some (c, r)
    | _, _ => none
  else
    some (-1, -1)

/-- The harvesting loop of `extract_labels` lines 57-69: for each child
whose identifier contains `"lbl"` and whose extracted text is non-empty
and not the marker, append a `LabelCell`; `none` models an `int` raise
aborting the loop (and the whole extraction). -/
def harvestLabels : List UIElement → Option (List LabelCell)
  | [] => some []
  | child :: rest =>
    if strContains child.id "lbl" then
      let text := extract_text child
      if text == "" || text == noTextMarker then harvestLabels rest
      else
        match parseCoords child.id with
        | none => none
        | some (c, r) =>
          (harvestLabels rest).map (fun cs => ⟨r, c, text⟩ :: cs)
    else harvestLabels rest

/-- The `(Row, Column)` coordinate pairs of a cell list; `df.pivot` raises
exactly when they contain a duplicate. -/
def coordsOf (cells : List LabelCell) : List (Int × Int) :=
  cells.map (fun c => (c.row, c.column))

/-- Insertion into a `Bool`-ordered list (helper for the pivot's sorting). -/
def insertSorted (le : α → α → Bool) (a : α) : List α → List α
  | [] => [a]
  | b :: l => if le a b then a :: b :: l else b :: insertSorted le a l

/-- Insertion sort with a `Bool` order (helper for the pivot's sorting). -/
def sortByLe (le : α → α → Bool) : List α → List α
  | [] => []
  | a :: l => insertSorted le a (sortByLe le l)

/-- One row of the pivoted table: its `Row` key and its `(column, text)`
cells sorted by column, as produced by `df.pivot(...).sort_index()`. -/
structure PivotRow where
  row : Int
  cells : List (Int × String)
deriving DecidableEq, Repr

/-- `df.pivot(index='Row', columns='Column', values='Text').sort_index()`
on a collision-free cell list: one `PivotRow` per distinct `Row` value,
rows ascending, each holding its cells keyed and sorted by column. -/
def pivotRows (cells : List LabelCell) : List PivotRow :=
  (sortByLe (fun a b => a ≤ b) (cells.map (fun c => c.row)).dedup).map
    (fun r =>
      ⟨r, sortByLe (fun a b => a.1 ≤ b.1)
            ((cells.filter (fun c => c.row == r)).map (fun c => (c.column, c.text)))⟩)

/-- `extract_labels` (`sap_labels_table_extractor.py` lines 38-82):
harvest the label cells (an `int` raise is caught and yields `None`);
an empty cell list yields `None` ("No labels found"); a duplicate
`(Row, Column)` pair makes `df.pivot` raise, which the `except` turns
into `None`; otherwise the pivoted table. -/
def extract_labels (children : List UIElement) : Option (List PivotRow) :=
  match harvestLabels children with
  | none => none
  | some [] => none
  | some (c :: cs) =>
    if (coordsOf (c :: cs)).Nodup then some (pivotRows (c :: cs)) else none

/-! ## Table preprocessor
(`utils/sap_labels_table_preprocess.py` and `utils/sap_alv_preprocess.py`) -/

/-- A pandas cell in the preprocessors: missing (`NaN`/`NaT`/`NA`) or text. -/
inductive Cell where
  | null
  | str (s : String)
deriving DecidableEq, Repr

/-- A calendar date (the preprocessors normalize away the time component
with `.dt.normalize()`, so midnight is implicit). -/
structure PyDate where
  year : Nat
  month : Nat
  day : Nat
deriving DecidableEq, Repr

/-- `pd.to_datetime(_, errors='coerce')` modelled on ISO `YYYY-MM-DD`
inputs: a 4-digit year and in-range numeric month/day parse; every other
string coerces to `NaT` (`none`).  The fixtures and tests of the spec use
only ISO inputs. -/
def parseIsoDate (s : String) : Option PyDate :=
  match splitChar '-' s.data with
  | [y, m, d] =>
    match digitsVal y, digitsVal m, digitsVal d with
    | some yv, some mv, some dv =>
      if y.length = 4 ∧ 1 ≤ mv ∧ mv ≤ 12 ∧ 1 ≤ dv ∧ dv ≤ 31 then
        some ⟨yv, mv, dv⟩
      else none
    | _, _, _ => none
  | _ => none

/-- Digit character of `n % 10`. -/
def digitChar (n : Nat) : Char := Char.ofNat (48 + n % 10)

/-- Two-digit zero-padded rendering (strftime `%m` / `%d`). -/
def twoDigits (n : Nat) : String :=
  ⟨[digitChar (n / 10 % 10), digitChar (n % 10)]⟩

/-- Four-digit zero-padded rendering (strftime `%Y`). -/
def fourDigits (n : Nat) : String :=
  ⟨[digitChar (n / 1000 % 10), digitChar (n / 100 % 10),
    digitChar (n / 10 % 10), digitChar (n % 10)]⟩

/-- `dt.strftime('%m/%d/%Y')`. -/
def formatMMDDYYYY (d : PyDate) : String :=
  twoDigits d.month ++ "/" ++ twoDigits d.day ++ "/" ++ fourDigits d.year

/-- `fillna(d)` on one cell. -/
def fillCell (d : String) : Cell → Cell
  | .null => .str d
  | .str s => .str s

/-- `astype(str)` on one cell: pandas renders `NaN` as the text `"nan"`. -/
def cellAstypeStr : Cell → String
  | .null => "nan"
  | .str s => s

/-- The per-column default of the coercion stage for non-numeric target
types (`sap_labels_table_preprocess.py` line 139):
`missing_value_fill.get(col, "") if missing_value_fill else ""`.
`fill` is the dict lookup's result for this column. -/
def dateDefault (fill : Option String) : String := fill.getD ""

/-- The "obvious bad values" list of `sap_labels_table_preprocess.py`
line 149, replaced by `pd.NA` before date parsing. -/
def badDateTokens : List String := ["", "nan", "NaN", "None", "null"]

/-- The `date` branch of `preprocess_sap_label_data` on one cell
(`sap_labels_table_preprocess.py` lines 142-153): `fillna(default_val)`,
`astype(str).str.strip()`, bad values to `pd.NA`, `pd.to_datetime(...,
errors='coerce').dt.normalize()`, `strftime('%m/%d/%Y')`, and finally
`.fillna("")` — so every unparseable cell ends as the empty string. -/
def labelDateCell (fill : Option String) (v : Cell) : Cell :=
  let s := pyStrip (cellAstypeStr (fillCell (dateDefault fill) v))
  if badDateTokens.contains s then .str ""
  else
    match parseIsoDate s with
    | some d => .str (formatMMDDYYYY d)
    | none => .str ""

/-- The `date` branch of `preprocess_sap_alv_data` on one cell
(`sap_alv_preprocess.py` lines 131-135): `pd.to_datetime(...,
errors='coerce').dt.normalize()` then `strftime('%m/%d/%Y')`, with no
trailing `fillna` — so every unparseable cell ends as `NaT`-derived
`NaN` (null). -/
def alvDateCell (v : Cell) : Cell :=
  match v with
  | .null => .null
  | .str s =>
    match parseIsoDate s with
    | some d => .str (formatMMDDYYYY d)
    | none => .null

/-- Column-level `date` coercion of the label (full) variant. -/
def labelDateStage (fill : Option String) (col : List Cell) : List Cell :=
  col.map (labelDateCell fill)

/-- Column-level `date` coercion of the light (ALV) variant. -/
def alvDateStage (col : List Cell) : List Cell :=
  col.map alvDateCell

/-- What the coercion stage of `preprocess_sap_label_data` does to a
column whose target type is none of date/int/float/str: lines 128-142
still run — in particular `fillna(default_val)` at line 142 — and no
conversion branch matches; the `else` at lines 191-192 is indented as a
`for`-`else`, so it does not skip this work. -/
def labelUnsupportedStage (fill : Option String) (col : List Cell) : List Cell :=
  col.map (fillCell (dateDefault fill))

/-- What the coercion stage of `preprocess_sap_alv_data` does to a column
whose target type is unsupported (lines 148-149): logs the warning and
leaves the column untouched. -/
def alvUnsupportedStage (col : List Cell) : List Cell := col

/-- A preprocessed table: named columns and rows of cells. -/
structure Table where
  cols : List String
  rows : List (List Cell)
deriving DecidableEq, Repr

/-- Cell at position `j` of a row (`df.at` on existing labels). -/
def getCellAt (row : List Cell) (j : Nat) : Cell :=
  row.getD j Cell.null

/-- `pd.isna(v) or v == ""` (`sap_labels_table_preprocess.py` line 220). -/
def isEmptyCell : Cell → Bool
  | .null => true
  | .str s => s == ""

/-- Stage 8 of both preprocessors (`sap_labels_table_preprocess.py`
lines 215-222, `sap_alv_preprocess.py` lines 172-178): if the table is
non-empty and contains the configured date column, and the last row's
cell in that column is `NaN` or `""`, overwrite that one cell with
`"Total"`; otherwise return the table unchanged.  A `date_col` of
`None` never matches (`None in df.columns` is `False`). -/
def sentinelStage (dateCol : Option String) (t : Table) : Table :=
  match dateCol with
  | none => t
  | some c =>
    if t.rows.isEmpty || !(t.cols.contains c) then t
    else
      let j := t.cols.indexOf c
      let i := t.rows.length - 1
      let row := t.rows.getD i []
      if isEmptyCell (getCellAt row j) then
        Table.mk t.cols (t.rows.set i (row.set j (Cell.str "Total")))
      else t

/-! ## Spreadsheet merger (`utils/update_excel_sheet.py`) -/

/-- A typed worksheet cell value. -/
inductive XlValue where
  | dateV (d : PyDate)
  | numV (n : Int)
  | strV (s : String)
  | emptyV
deriving DecidableEq, Repr

/-- A worksheet cell: value plus its named style. -/
structure XlCell where
  value : XlValue
  style : String
deriving DecidableEq, Repr

/-- `isinstance(cell.value, datetime.date)`. -/
def isDateValue : XlValue → Bool
  | .dateV _ => true
  | _ => false

/-- The fixed named style of `update_excel_sheet.py` line 71. -/
def mmddyyyyStyleName : String := "mmddyyyy"

/-- The per-cell style application of `update_excel_sheet.py` lines 84-87:
style the cell only if it holds a date and is not already styled. -/
def applyDateStyleCell (c : XlCell) : XlCell :=
  if isDateValue c.value && c.style != mmddyyyyStyleName then
    XlCell.mk c.value mmddyyyyStyleName
  else c

/-- The style registration of `update_excel_sheet.py` lines 74-77: append
the `mmddyyyy` named style only when no style of that name exists yet. -/
def registerDateStyle (styles : List String) : List String :=
  if styles.contains mmddyyyyStyleName then styles else styles ++ [mmddyyyyStyleName]

/-- The freshly written worksheet the style loop runs over: the workbook's
named styles, the header row (row 1), and the data rows (rows 2..n+1). -/
structure Workbook where
  styleNames : List String
  header : List XlCell
  dataRows : List (List XlCell)
deriving DecidableEq, Repr

/-- Apply the per-cell styling to the cells of one data row designated by
the date-column mask (`True` at indices of columns listed in
`date_columns`). -/
def applyRowStyles (mask : List Bool) (row : List XlCell) : List XlCell :=
  List.zipWith (fun b c => if b then applyDateStyleCell c else c) mask row

/-- `cols.get_loc` membership mask: `mask[j]` iff column `j`'s name is in
`date_columns` (the loop at `update_excel_sheet.py` lines 80-87 visits
exactly the date columns present in `df.columns`). -/
def dateColMask (cols dateCols : List String) : List Bool :=
  cols.map (fun c => dateCols.contains c)

/-- The whole style-application step of `update_excel_with_sap_data`
(`update_excel_sheet.py` lines 71-87): register the `mmddyyyy` style
if absent, then style every date-valued, not-yet-styled cell of the
data rows (rows 2..shape+1) in the designated columns. -/
def applyDateStyles (mask : List Bool) (wb : Workbook) : Workbook :=
  Workbook.mk (registerDateStyle wb.styleNames) wb.header
    (wb.dataRows.map (applyRowStyles mask))

/-- A pandas column dtype as relevant to `update_excel_with_sap_data`. -/
inductive PdDType where
  | objT
  | numT
  | dateT
deriving DecidableEq, Repr

/-- A pandas cell value in the merger's DataFrame. -/
inductive PdValue where
  | strV (s : String)
  | intV (n : Int)
  | dateV (d : PyDate)
  | nullV
deriving DecidableEq, Repr

/-- A named, typed DataFrame column. -/
structure PdColumn where
  name : String
  dtype : PdDType
  vals : List PdValue
deriving DecidableEq, Repr

/-- A DataFrame: a list of columns. -/
structure PdFrame where
  cols : List PdColumn
deriving DecidableEq, Repr

/-- Numeric reading of one cell, modelling pandas numeric parsing on
integer-formatted text (the repository's extracted cells are text). -/
def numericOfValue : PdValue → Option Int
  | .intV n => some n
  | .strV s => pyInt s
  | _ => none

/-- `pd.to_numeric(df[column], errors='ignore')`
(`update_excel_sheet.py` line 36): if every cell parses, the column
becomes numeric; if any cell fails, the column is returned unchanged. -/
def toNumericIgnore (c : PdColumn) : PdColumn :=
  match c.vals.mapM numericOfValue with
  | some ns => PdColumn.mk c.name PdDType.numT (ns.map PdValue.intV)
  | none => c

/-- `pd.to_datetime(df[col], errors='coerce').dt.date` on one cell
(`update_excel_sheet.py` line 44), modelled on ISO text and existing
dates; unparseable cells coerce to `NaT` (null). -/
def toDateValue : PdValue → PdValue
  | .dateV d => .dateV d
  | .strV s =>
    match parseIsoDate (pyStrip s) with
    | some d => .dateV d
    | none => .nullV
  | .intV _ => .nullV
  | .nullV => .nullV

/-- Date conversion of one whole column (`update_excel_sheet.py`
lines 42-44). -/
def toDateCol (c : PdColumn) : PdColumn :=
  PdColumn.mk c.name PdDType.dateT (c.vals.map toDateValue)

/-- What `update_excel_with_sap_data` lines 35-44 do to one column of the
caller's DataFrame: object-dtype columns get the opportunistic numeric
conversion, then columns listed in `date_columns` get the date
conversion. -/
def prepareColumn (dateCols : List String) (c : PdColumn) : PdColumn :=
  let c1 := if c.dtype == PdDType.objT then toNumericIgnore c else c
  if dateCols.contains c1.name then toDateCol c1 else c1

/-- The whole-frame in-place transformation of `update_excel_sheet.py`
lines 35-44. -/
def prepareFrame (dateCols : List String) (df : PdFrame) : PdFrame :=
  PdFrame.mk (df.cols.map (prepareColumn dateCols))

/-- A heap of DataFrame objects; a caller's DataFrame is a reference
(index) into it.  This makes the in-place/copy distinction explicit:
the preprocessors call `df.copy()` and leave the caller's slot alone,
while `update_excel_with_sap_data` assigns into `df[...]` directly. -/
def DfHeap : Type := List PdFrame

/-- Read a reference. -/
def readRef (h : DfHeap) (r : Nat) : PdFrame :=
  h.getD r (PdFrame.mk [])

/-- Heap effect of `update_excel_with_sap_data` on the DataFrame the
caller passed: lines 35-44 assign converted columns into the caller's
object itself (no `df.copy()`), so the caller's slot is overwritten
before anything is written to the workbook. -/
def update_excel_mutation (dateCols : List String) (h : DfHeap) (r : Nat) : DfHeap :=
  h.set r (prepareFrame dateCols (readRef h r))

/-! ## Theorems -/

/-- Claim C2: `is_session_idle` returns true iff the session's active
transaction code is empty or, after stripping whitespace, one of the fixed
home-screen sentinels; a session on "SESSION_MANAGER" is idle, one on
"VA01" is busy; and a fault while reading the session's attributes yields
`false` (fail-closed) rather than propagating. -/
theorem is_session_idle_spec :
    (∀ (i : SessionInfo),
        is_session_idle (RemoteSession.mk (some i)) = true ↔
          (i.transaction = "" ∨ pyStrip i.transaction ∈ idleSentinels)) ∧
    (∀ s : RemoteSession, s.info = none → is_session_idle s = false) ∧
    (∀ sys u, is_session_idle (RemoteSession.mk (some (SessionInfo.mk "SESSION_MANAGER" sys u))) = true) ∧
    (∀ sys u, is_session_idle (RemoteSession.mk (some (SessionInfo.mk "VA01" sys u))) = false) := by
  refine ⟨fun i => ?_, fun s h => ?_, fun sys u => rfl, fun sys u => rfl⟩
  · simp [is_session_idle, List.elem_iff]
  · cases s with
    | mk info => cases h; rfl

/-- Witness for C2 at concrete sessions. -/
theorem is_session_idle_spec_witness :
    is_session_idle (RemoteSession.mk none) = false ∧
    is_session_idle (RemoteSession.mk (some (SessionInfo.mk "SESSION_MANAGER" "SYS" "USR"))) = true ∧
    (is_session_idle (RemoteSession.mk (some (SessionInfo.mk "  " "SYS" "USR"))) = true ↔
      ("  " = "" ∨ pyStrip "  " ∈ idleSentinels)) :=
  ⟨is_session_idle_spec.2.1 (RemoteSession.mk none) rfl,
   is_session_idle_spec.2.2.1 "SYS" "USR",
   is_session_idle_spec.1 (SessionInfo.mk "  " "SYS" "USR")⟩

/-- Claim C10 (implicit): `get_sap_sessions` returns at most one session per
connection — only the first session (`Children(0)`) of each connection —
and `connect_to_idle_sap` only ever returns a session that is the first
session of some connection of one of its two listings, so idle sessions
beyond the first of a connection are never discovered or selected. -/
theorem get_sap_sessions_first_only (e : ScriptingEngine) (env : BrokerEnv) :
    get_sap_sessions (some e) = e.connections.filterMap List.head? ∧
    (∀ s ∈ get_sap_sessions (some e), ∃ c ∈ e.connections, c.head? = some s) ∧
    (get_sap_sessions (some e)).length ≤ e.connections.length ∧
    (∀ s evs, connect_to_idle_sap env = (some s, evs) →
       (∃ e1, env.engine1 = some e1 ∧ ∃ c ∈ e1.connections, c.head? = some s) ∨
       (∃ e2, env.engine2 = some e2 ∧ ∃ c ∈ e2.connections, c.head? = some s)) := by
  refine ⟨rfl, ?_, ?_, ?_⟩
  · intro s hs
    simpa [get_sap_sessions, List.mem_filterMap] using hs
  · simpa [get_sap_sessions] using List.length_filterMap_le List.head? e.connections
  · intro s evs h
    have hmem : (∃ e1, env.engine1 = some e1 ∧ s ∈ get_sap_sessions env.engine1) ∨
        (∃ e2, env.engine2 = some e2 ∧ s ∈ get_sap_sessions env.engine2) := by
      unfold connect_to_idle_sap at h
      split at h
      case _ s1 heq =>
        have hs1 : s1 ∈ get_sap_sessions env.engine1 := List.mem_of_find?_eq_some heq
        cases h
        cases he : env.engine1 with
        | none => rw [he] at hs1; simp [get_sap_sessions] at hs1
        | some e1 => rw [he] at hs1; exact Or.inl ⟨e1, rfl, hs1⟩
      case _ =>
        split at h
        case _ =>
          split at h
          case _ s2 heq2 =>
            have hs2 : s2 ∈ get_sap_sessions env.engine2 := List.mem_of_find?_eq_some heq2
            cases h
            cases he : env.engine2 with
            | none => rw [he] at hs2; simp [get_sap_sessions] at hs2
            | some e2 => rw [he] at hs2; exact Or.inr ⟨e2, rfl, hs2⟩
          case _ => cases h
        case _ => cases h
        case _ => cases h
    rcases hmem with ⟨e1, he1, hs1⟩ | ⟨e2, he2, hs2⟩
    · rw [he1] at hs1
      simp only [get_sap_sessions, List.mem_filterMap] at hs1
      obtain ⟨c, hc, hcs⟩ := hs1
      exact Or.inl ⟨e1, he1, c, hc, hcs⟩
    · rw [he2] at hs2
      simp only [get_sap_sessions, List.mem_filterMap] at hs2
      obtain ⟨c, hc, hcs⟩ := hs2
      exact Or.inr ⟨e2, he2, c, hc, hcs⟩

/-- Witness for C10: a one-connection engine whose only session is idle. -/
theorem get_sap_sessions_first_only_witness :
    (∃ e1, (BrokerEnv.mk
        (some (ScriptingEngine.mk [[RemoteSession.mk (some (SessionInfo.mk "" "SYS" "USR"))]]))
        (some false)
        (some (ScriptingEngine.mk []))).engine1 = some e1 ∧
       ∃ c ∈ e1.connections,
         c.head? = some (RemoteSession.mk (some (SessionInfo.mk "" "SYS" "USR")))) ∨
    (∃ e2, (BrokerEnv.mk
        (some (ScriptingEngine.mk [[RemoteSession.mk (some (SessionInfo.mk "" "SYS" "USR"))]]))
        (some false)
        (some (ScriptingEngine.mk []))).engine2 = some e2 ∧
       ∃ c ∈ e2.connections,
         c.head? = some (RemoteSession.mk (some (SessionInfo.mk "" "SYS" "USR")))) :=
  (get_sap_sessions_first_only (ScriptingEngine.mk [])
    (BrokerEnv.mk
      (some (ScriptingEngine.mk [[RemoteSession.mk (some (SessionInfo.mk "" "SYS" "USR"))]]))
      (some false)
      (some (ScriptingEngine.mk [])))).2.2.2
    (RemoteSession.mk (some (SessionInfo.mk "" "SYS" "USR")))
    [BrokerEvent.listSessionsEv, BrokerEvent.foregroundEv] (by decide)

/-- Claim C3, counterexample: with no sessions listed (so no listed session
is idle) and `launch()` returning false, `connect_to_idle_sap` returns
`None` after a trace containing no settle wait and only the one initial
listing — it does not "wait a fixed settle interval, re-list sessions
exactly once, and retry idle selection exactly once" as the claim states
for this case. -/
theorem connect_launch_false_no_relist :
    get_sap_sessions (some (ScriptingEngine.mk [])) = [] ∧
    connect_to_idle_sap
        (BrokerEnv.mk (some (ScriptingEngine.mk [])) (some false) (some (ScriptingEngine.mk []))) =
      (none, [BrokerEvent.listSessionsEv, BrokerEvent.launchEv]) ∧
    [BrokerEvent.listSessionsEv, BrokerEvent.launchEv].count BrokerEvent.listSessionsEv = 1 ∧
    [BrokerEvent.listSessionsEv, BrokerEvent.launchEv].count (BrokerEvent.sleepEv 5) = 0 := by
  decide

/-- Claim C3 as amended: when no listed session is idle,
`connect_to_idle_sap` invokes `launch()` at most once and never raises;
if `launch()` returns false or raises it returns `None` immediately,
without waiting or re-listing; if `launch()` returns true it waits the
fixed 5-second settle interval, re-lists exactly once (two listings in
total), retries idle selection exactly once, and returns `None` when that
second attempt also finds no idle session. -/
theorem connect_to_idle_sap_amended (env : BrokerEnv)
    (hidle : ∀ s ∈ get_sap_sessions env.engine1, is_session_idle s = false) :
    (connect_to_idle_sap env).2.count BrokerEvent.launchEv ≤ 1 ∧
    (env.launchResult = some false →
        connect_to_idle_sap env = (none, [BrokerEvent.listSessionsEv, BrokerEvent.launchEv])) ∧
    (env.launchResult = none →
        connect_to_idle_sap env = (none, [BrokerEvent.listSessionsEv, BrokerEvent.launchEv])) ∧
    (env.launchResult = some true →
        (∀ s ∈ get_sap_sessions env.engine2, is_session_idle s = false) →
        connect_to_idle_sap env =
          (none, [BrokerEvent.listSessionsEv, BrokerEvent.launchEv,
                  BrokerEvent.sleepEv 5, BrokerEvent.listSessionsEv])) ∧
    (env.launchResult = some true →
        (connect_to_idle_sap env).2.count BrokerEvent.listSessionsEv = 2) := by
  have hf1 : firstIdle (get_sap_sessions env.engine1) = none := by
    apply List.find?_eq_none.mpr
    intro x hx
    simp [hidle x hx]
  refine ⟨?_, ?_, ?_, ?_, ?_⟩
  · cases hl : env.launchResult with
    | none =>
      have hc : connect_to_idle_sap env =
          (none, [BrokerEvent.listSessionsEv, BrokerEvent.launchEv]) := by
        unfold connect_to_idle_sap; rw [hf1, hl]
      rw [hc]; decide
    | some b =>
      cases b with
      | false =>
        have hc : connect_to_idle_sap env =
            (none, [BrokerEvent.listSessionsEv, BrokerEvent.launchEv]) := by
          unfold connect_to_idle_sap; rw [hf1, hl]
        rw [hc]; decide
      | true =>
        cases hf2 : firstIdle (get_sap_sessions env.engine2) with
        | none =>
          have hc : connect_to_idle_sap env =
              (none, [BrokerEvent.listSessionsEv, BrokerEvent.launchEv,
                      BrokerEvent.sleepEv 5, BrokerEvent.listSessionsEv]) := by
            unfold connect_to_idle_sap; rw [hf1, hl, hf2]
          rw [hc]; decide
        | some v =>
          have hc : connect_to_idle_sap env =
              (some v, [BrokerEvent.listSessionsEv, BrokerEvent.launchEv,
                        BrokerEvent.sleepEv 5, BrokerEvent.listSessionsEv,
                        BrokerEvent.foregroundEv]) := by
            unfold connect_to_idle_sap; rw [hf1, hl, hf2]
          rw [hc]
          show List.count BrokerEvent.launchEv
            [BrokerEvent.listSessionsEv, BrokerEvent.launchEv,
             BrokerEvent.sleepEv 5, BrokerEvent.listSessionsEv,
             BrokerEvent.foregroundEv] ≤ 1
          decide
  · intro hl
    unfold connect_to_idle_sap
    rw [hf1, hl]
  · intro hl
    unfold connect_to_idle_sap
    rw [hf1, hl]
  · intro hl hidle2
    have hf2 : firstIdle (get_sap_sessions env.engine2) = none := by
      apply List.find?_eq_none.mpr
      intro x hx
      simp [hidle2 x hx]
    unfold connect_to_idle_sap
    rw [hf1, hl, hf2]
  · intro hl
    cases hf2 : firstIdle (get_sap_sessions env.engine2) with
    | none =>
      have hc : connect_to_idle_sap env =
          (none, [BrokerEvent.listSessionsEv, BrokerEvent.launchEv,
                  BrokerEvent.sleepEv 5, BrokerEvent.listSessionsEv]) := by
        unfold connect_to_idle_sap; rw [hf1, hl, hf2]
      rw [hc]; decide
    | some v =>
      have hc : connect_to_idle_sap env =
          (some v, [BrokerEvent.listSessionsEv, BrokerEvent.launchEv,
                    BrokerEvent.sleepEv 5, BrokerEvent.listSessionsEv,
                    BrokerEvent.foregroundEv]) := by
        unfold connect_to_idle_sap; rw [hf1, hl, hf2]
      rw [hc]
      show List.count BrokerEvent.listSessionsEv
        [BrokerEvent.listSessionsEv, BrokerEvent.launchEv,
         BrokerEvent.sleepEv 5, BrokerEvent.listSessionsEv,
         BrokerEvent.foregroundEv] = 2
      decide

/-- Witness for the amended C3 at a concrete environment. -/
theorem connect_to_idle_sap_amended_witness :
    connect_to_idle_sap
        (BrokerEnv.mk (some (ScriptingEngine.mk [])) (some true) (some (ScriptingEngine.mk []))) =
      (none, [BrokerEvent.listSessionsEv, BrokerEvent.launchEv,
              BrokerEvent.sleepEv 5, BrokerEvent.listSessionsEv]) :=
  (connect_to_idle_sap_amended
    (BrokerEnv.mk (some (ScriptingEngine.mk [])) (some true) (some (ScriptingEngine.mk [])))
    (by decide)).2.2.2.1 rfl (by decide)

/-- Claim C1: if the harvested label-cell list has two distinct entries
sharing a `(row, column)` pair, `extract_labels` reports the error outcome
`none` (the `df.pivot` raise is caught and logged) instead of silently
overwriting; equivalently, whenever it returns a pivoted table, the cell
list it was built from was injective on `(row, column)`. -/
theorem extract_labels_collision_safe (children : List UIElement) (cells : List LabelCell)
    (hh : harvestLabels children = some cells) :
    (¬ (coordsOf cells).Nodup → extract_labels children = none) ∧
    (∀ t, extract_labels children = some t → (coordsOf cells).Nodup) := by
  constructor
  · intro hdup
    unfold extract_labels
    rw [hh]
    cases cells with
    | nil => exact absurd (by simp [coordsOf]) hdup
    | cons c cs => simp [hdup]
  · intro t ht
    unfold extract_labels at ht
    rw [hh] at ht
    cases cells with
    | nil => simp [coordsOf]
    | cons c cs =>
      by_cases hn : (coordsOf (c :: cs)).Nodup
      · exact hn
      · simp [hn] at ht

/-- Witness for C1: two label cells at the same `(row, column)` make the
extractor return the error outcome. -/
theorem extract_labels_collision_safe_witness :
    extract_labels [UIElement.mk "lblA[0,1]" (some "A") none none none none,
                    UIElement.mk "lblB[0,1]" (some "B") none none none none] = none :=
  (extract_labels_collision_safe
    [UIElement.mk "lblA[0,1]" (some "A") none none none none,
     UIElement.mk "lblB[0,1]" (some "B") none none none none]
    [LabelCell.mk 1 0 "A", LabelCell.mk 1 0 "B"] (by decide)).1 (by decide)

/-- Claim C4, counterexample: the child `lbl[a,b]` has a malformed trailing
bracket suffix (two comma-separated fields that are not integers), its text
is non-empty, yet no `LabelCell` with sentinel coordinates is recorded —
`int()` raises, the harvesting loop is aborted and the whole extraction
returns `None`, dropping the cell and every other cell. -/
theorem extract_labels_malformed_aborts :
    strContains "lbl[a,b]" "lbl" = true ∧
    extract_text (UIElement.mk "lbl[a,b]" (some "hello") none none none none) = "hello" ∧
    harvestLabels [UIElement.mk "lbl[a,b]" (some "hello") none none none none] = none ∧
    extract_labels [UIElement.mk "lbl[a,b]" (some "hello") none none none none,
                    UIElement.mk "lblOk[0,1]" (some "kept") none none none none] = none := by
  decide

/-- Claim C4 as amended: a label child whose identifier's trailing suffix
splits on commas into a number of fields other than two is recorded with
the sentinel coordinates `(column = -1, row = -1)` and extraction of the
remaining cells continues; but when the suffix splits into exactly two
fields and integer parsing of them fails, `int()` raises and the whole
extraction is aborted (`extract_labels` returns `None`). -/
theorem extract_labels_sentinel_amended (child : UIElement) (rest : List UIElement)
    (hlbl : strContains child.id "lbl" = true)
    (htext : (extract_text child == "" || extract_text child == noTextMarker) = false) :
    ((splitChar ',' ((splitChar '[' child.id.data).getLastD [])).length ≠ 2 →
       harvestLabels (child :: rest) =
         (harvestLabels rest).map
           (fun cs => LabelCell.mk (-1) (-1) (extract_text child) :: cs)) ∧
    (parseCoords child.id = none →
       harvestLabels (child :: rest) = none ∧ extract_labels (child :: rest) = none) := by
  constructor
  · intro hlen
    have hpc : parseCoords child.id = some (-1, -1) := by
      unfold parseCoords
      rw [dif_neg hlen]
    simp [harvestLabels, hlbl, htext, hpc]
  · intro hpc
    have hh : harvestLabels (child :: rest) = none := by
      simp [harvestLabels, hlbl, htext, hpc]
    exact ⟨hh, by simp [extract_labels, hh]⟩

/-- Witness for the amended C4: a label child with no bracket suffix is
recorded at `(-1, -1)`, and one with a two-field non-numeric suffix aborts
the extraction. -/
theorem extract_labels_sentinel_amended_witness :
    harvestLabels [UIElement.mk "lblNoCoords" (some "t") none none none none] =
      some [LabelCell.mk (-1) (-1) "t"] ∧
    extract_labels [UIElement.mk "lbl[a,b]" (some "u") none none none none] = none := by
  constructor
  · have h := (extract_labels_sentinel_amended
      (UIElement.mk "lblNoCoords" (some "t") none none none none) [] (by decide) (by decide)).1
      (by decide)
    rw [h]; decide
  · exact ((extract_labels_sentinel_amended
      (UIElement.mk "lbl[a,b]" (some "u") none none none none) [] (by decide) (by decide)).2
      (by decide)).2

/-- The "obvious bad values" of the label variant's date branch never
parse as dates, so the bad-value replacement cannot mask a parseable
value. -/
theorem badDateTokens_unparseable (t : String) (h : badDateTokens.contains t = true) :
    parseIsoDate t = none := by
  have hm : t ∈ badDateTokens := List.elem_iff.mp h
  simp only [badDateTokens, List.mem_cons, List.mem_singleton, List.not_mem_nil, or_false] at hm
  rcases hm with rfl | rfl | rfl | rfl | rfl <;> decide

/-- Claim C5, counterexample: the claim assigns the empty-string fallback
for unparseable dates to the light (ALV) preprocessing variant and null to
the other; the code does the opposite — `preprocess_sap_alv_data` leaves
an unparseable value as null (`NaT`-derived `NaN`, no trailing `fillna`),
while `preprocess_sap_label_data` renders it as the empty string
(`.fillna("")` at line 153). -/
theorem date_coercion_variant_swap :
    alvDateCell (Cell.str "abc") = Cell.null ∧
    Cell.null ≠ Cell.str "" ∧
    labelDateCell none (Cell.str "abc") = Cell.str "" ∧
    Cell.str "" ≠ Cell.null := by
  decide

/-- Claim C5 as amended: in both variants each parseable cell of a
date-typed column is parsed, normalized to a calendar value and
re-rendered as `MM/DD/YYYY` text (so `"2022-01-01"` yields
`"01/01/2022"`); each unparseable cell becomes the empty string in the
label (full) preprocessing variant and null in the light (ALV) variant. -/
theorem date_coercion_amended (fill : Option String) (s : String) :
    (∀ d, parseIsoDate (pyStrip s) = some d →
        labelDateCell fill (Cell.str s) = Cell.str (formatMMDDYYYY d)) ∧
    (parseIsoDate (pyStrip s) = none → labelDateCell fill (Cell.str s) = Cell.str "") ∧
    (∀ d, parseIsoDate s = some d → alvDateCell (Cell.str s) = Cell.str (formatMMDDYYYY d)) ∧
    (parseIsoDate s = none → alvDateCell (Cell.str s) = Cell.null) ∧
    alvDateCell Cell.null = Cell.null ∧
    labelDateCell fill (Cell.str "2022-01-01") = Cell.str "01/01/2022" ∧
    alvDateCell (Cell.str "2022-01-01") = Cell.str "01/01/2022" := by
  refine ⟨?_, ?_, ?_, ?_, rfl, rfl, rfl⟩
  · intro d hd
    have hnm : pyStrip s ∉ badDateTokens := by
      intro hm
      rw [badDateTokens_unparseable _ (List.elem_iff.mpr hm)] at hd
      cases hd
    simp [labelDateCell, fillCell, cellAstypeStr, hd, hnm]
  · intro hnone
    by_cases hm : pyStrip s ∈ badDateTokens
    · simp [labelDateCell, fillCell, cellAstypeStr, hm]
    · simp [labelDateCell, fillCell, cellAstypeStr, hm, hnone]
  · intro d hd
    simp [alvDateCell, hd]
  · intro hnone
    simp [alvDateCell, hnone]

/-- Witness for the amended C5: the fixture value parses and round-trips,
the unparseable value "Total" becomes `""` in the label variant and null
in the light variant. -/
theorem date_coercion_amended_witness :
    labelDateCell none (Cell.str "2022-01-01") = Cell.str (formatMMDDYYYY (PyDate.mk 2022 1 1)) ∧
    labelDateCell none (Cell.str "Total") = Cell.str "" ∧
    alvDateCell (Cell.str "Total") = Cell.null :=
  ⟨(date_coercion_amended none "2022-01-01").1 (PyDate.mk 2022 1 1) (by decide),
   (date_coercion_amended none "Total").2.1 (by decide),
   (date_coercion_amended none "Total").2.2.2.1 (by decide)⟩

/-- Claim C6 is right and the code is wrong in one of the two variants:
in `preprocess_sap_label_data` the `else` of the type-dispatch chain
(lines 191-192) is indented as a `for`-`else`, so the "Unsupported data
type" warning fires once after the whole loop (naming the last iterated
column, even when every type was supported) instead of per unsupported
column, and an unsupported-type column is still altered by the stage:
`fillna(default_val)` at line 142 turns its nulls into the default text.
The ALV variant (lines 148-149) implements the claimed behaviour,
showing the intent.  This theorem evaluates both embeddings at the
failing input: a column holding one null with an unsupported target
type. -/
theorem label_unsupported_dtype_altered :
    labelUnsupportedStage none [Cell.null] = [Cell.str ""] ∧
    Cell.str "" ≠ Cell.null ∧
    alvUnsupportedStage [Cell.null] = [Cell.null] := by
  decide

/-- `getD` after `set` at a different index is unchanged. -/
theorem list_getD_set_ne {α} (d : α) (l : List α) (i k : ℕ) (v : α) (h : i ≠ k) :
    (l.set i v).getD k d = l.getD k d := by
  rw [List.getD_eq_getElem?_getD, List.getD_eq_getElem?_getD, List.getElem?_set_ne h]

/-- `getD` after `set` at the same in-range index yields the new value. -/
theorem list_getD_set_self {α} (d : α) (l : List α) (i : ℕ) (v : α) (h : i < l.length) :
    (l.set i v).getD i d = v := by
  rw [List.getD_eq_getElem?_getD, List.getElem?_set_self h]
  rfl

/-- Claim C7: on a non-empty preprocessed table containing the configured
date column, if the last row's cell in that column is null or empty then
exactly that cell is overwritten with the literal "Total"; if the last row
carries a non-empty value there, the table is returned unchanged by this
stage; in either case columns, row count and every other cell are
untouched. -/
theorem sentinel_stage_spec (c : String) (t : Table)
    (hne : t.rows ≠ []) (hc : t.cols.contains c = true) :
    (isEmptyCell (getCellAt (t.rows.getD (t.rows.length - 1) []) (t.cols.indexOf c)) = true →
       sentinelStage (some c) t =
         Table.mk t.cols
           (t.rows.set (t.rows.length - 1)
             ((t.rows.getD (t.rows.length - 1) []).set (t.cols.indexOf c) (Cell.str "Total")))) ∧
    (isEmptyCell (getCellAt (t.rows.getD (t.rows.length - 1) []) (t.cols.indexOf c)) = false →
       sentinelStage (some c) t = t) ∧
    (sentinelStage (some c) t).cols = t.cols ∧
    (sentinelStage (some c) t).rows.length = t.rows.length ∧
    (∀ i j, ¬(i = t.rows.length - 1 ∧ j = t.cols.indexOf c) →
       getCellAt ((sentinelStage (some c) t).rows.getD i []) j =
         getCellAt (t.rows.getD i []) j) := by
  have hni : t.rows.isEmpty = false := by
    cases hr : t.rows.isEmpty with
    | false => rfl
    | true => exact absurd (List.isEmpty_iff.mp hr) hne
  have hred : sentinelStage (some c) t =
      (if isEmptyCell (getCellAt (t.rows.getD (t.rows.length - 1) []) (t.cols.indexOf c)) then
        Table.mk t.cols
          (t.rows.set (t.rows.length - 1)
            ((t.rows.getD (t.rows.length - 1) []).set (t.cols.indexOf c) (Cell.str "Total")))
      else t) := by
    show (if (t.rows.isEmpty || !(t.cols.contains c)) = true then t else _) = _
    rw [hni, hc]
    simp
  refine ⟨?_, ?_, ?_, ?_, ?_⟩
  · intro hemp
    rw [hred, if_pos hemp]
  · intro hemp
    rw [hred, hemp]
    simp
  · rw [hred]
    split <;> rfl
  · rw [hred]
    split
    · simp
    · rfl
  · intro i j hij
    rw [hred]
    split
    case isFalse => rfl
    case isTrue hemp =>
      have hlt : t.rows.length - 1 < t.rows.length :=
        Nat.sub_lt (List.length_pos.mpr hne) one_pos
      rcases not_and_or.mp hij with hi | hj
      · have hgi := list_getD_set_ne ([] : List Cell) t.rows (t.rows.length - 1) i
          ((t.rows.getD (t.rows.length - 1) []).set (t.cols.indexOf c) (Cell.str "Total"))
          (fun he => hi he.symm)
        simp only [hgi]
      · by_cases hi : i = t.rows.length - 1
        · subst hi
          have h1 := list_getD_set_self ([] : List Cell) t.rows (t.rows.length - 1)
            ((t.rows.getD (t.rows.length - 1) []).set (t.cols.indexOf c) (Cell.str "Total")) hlt
          simp only [h1]
          unfold getCellAt
          exact list_getD_set_ne Cell.null (t.rows.getD (t.rows.length - 1) [])
            (t.cols.indexOf c) j (Cell.str "Total") (fun he => hj he.symm)
        · have hgi := list_getD_set_ne ([] : List Cell) t.rows (t.rows.length - 1) i
            ((t.rows.getD (t.rows.length - 1) []).set (t.cols.indexOf c) (Cell.str "Total"))
            (fun he => hi he.symm)
          simp only [hgi]

/-- Witness for C7 at concrete tables: an empty last date cell becomes
"Total"; a filled one leaves the table unchanged. -/
theorem sentinel_stage_spec_witness :
    sentinelStage (some "D")
        (Table.mk ["A", "D"] [[Cell.str "x", Cell.str "01/01/2022"], [Cell.str "y", Cell.null]]) =
      Table.mk ["A", "D"] [[Cell.str "x", Cell.str "01/01/2022"], [Cell.str "y", Cell.str "Total"]] ∧
    sentinelStage (some "D")
        (Table.mk ["A", "D"] [[Cell.str "x", Cell.str "01/01/2022"], [Cell.str "y", Cell.str "02/02/2022"]]) =
      Table.mk ["A", "D"] [[Cell.str "x", Cell.str "01/01/2022"], [Cell.str "y", Cell.str "02/02/2022"]] := by
  constructor
  · have h := (sentinel_stage_spec "D"
      (Table.mk ["A", "D"] [[Cell.str "x", Cell.str "01/01/2022"], [Cell.str "y", Cell.null]])
      (by decide) (by decide)).1 (by decide)
    rw [h]; decide
  · exact (sentinel_stage_spec "D"
      (Table.mk ["A", "D"] [[Cell.str "x", Cell.str "01/01/2022"], [Cell.str "y", Cell.str "02/02/2022"]])
      (by decide) (by decide)).2.1 (by decide)

/-- Styling a cell twice equals styling it once: after the first pass a
date cell carries the `mmddyyyy` style, so the
`cell.style != date_style.name` guard skips it. -/
theorem applyDateStyleCell_idem (c : XlCell) :
    applyDateStyleCell (applyDateStyleCell c) = applyDateStyleCell c := by
  by_cases hd : isDateValue c.value = true
  · by_cases hs : c.style = mmddyyyyStyleName
    · simp [applyDateStyleCell, hd, hs]
    · simp [applyDateStyleCell, hd, hs]
  · simp [applyDateStyleCell, Bool.not_eq_true _ ▸ hd]

/-- Styling a data row twice equals styling it once. -/
theorem applyRowStyles_idem (mask : List Bool) (row : List XlCell) :
    applyRowStyles mask (applyRowStyles mask row) = applyRowStyles mask row := by
  induction mask generalizing row with
  | nil => simp [applyRowStyles]
  | cons b bs ih =>
    cases row with
    | nil => simp [applyRowStyles]
    | cons x xs =>
      cases b with
      | false => simpa [applyRowStyles] using ih xs
      | true =>
        simp only [applyRowStyles, List.zipWith_cons_cons, if_pos rfl] at *
        exact congrArg₂ List.cons (applyDateStyleCell_idem x) (ih xs)

/-- Registering the named style twice equals registering it once. -/
theorem registerDateStyle_idem (styles : List String) :
    registerDateStyle (registerDateStyle styles) = registerDateStyle styles := by
  by_cases hm : mmddyyyyStyleName ∈ styles
  · simp [registerDateStyle, hm]
  · simp [registerDateStyle, hm]

/-- Claim C8: the style-application step of `update_excel_with_sap_data`
is idempotent — applying the `MM/DD/YYYY` date style twice produces the
same workbook as applying it once, with no duplicate registration in the
named-style list and no re-application to an already-styled cell — and
one application leaves the `mmddyyyy` style present exactly once more
than before when absent, and present in any case. -/
theorem apply_date_styles_idempotent (mask : List Bool) (wb : Workbook) :
    applyDateStyles mask (applyDateStyles mask wb) = applyDateStyles mask wb ∧
    mmddyyyyStyleName ∈ (applyDateStyles mask wb).styleNames ∧
    (applyDateStyles mask (applyDateStyles mask wb)).styleNames.count mmddyyyyStyleName =
      (applyDateStyles mask wb).styleNames.count mmddyyyyStyleName := by
  have hmain : applyDateStyles mask (applyDateStyles mask wb) = applyDateStyles mask wb := by
    unfold applyDateStyles
    refine congrArg₂ (Workbook.mk · wb.header ·) (registerDateStyle_idem wb.styleNames) ?_
    rw [List.map_map]
    exact List.map_congr_left (fun r _ => applyRowStyles_idem mask r)
  refine ⟨hmain, ?_, by rw [hmain]⟩
  by_cases hm : mmddyyyyStyleName ∈ wb.styleNames
  · simp [applyDateStyles, registerDateStyle, hm]
  · simp [applyDateStyles, registerDateStyle, hm]

/-- Every cell of a date-converted column is a calendar date or null. -/
theorem toDateValue_shape (v : PdValue) :
    (∃ d, toDateValue v = PdValue.dateV d) ∨ toDateValue v = PdValue.nullV := by
  cases v with
  | strV s =>
    cases hp : parseIsoDate (pyStrip s) with
    | some d => exact Or.inl ⟨d, by simp [toDateValue, hp]⟩
    | none => exact Or.inr (by simp [toDateValue, hp])
  | intV n => exact Or.inr rfl
  | dateV d => exact Or.inl ⟨d, rfl⟩
  | nullV => exact Or.inr rfl

/-- Claim C9 (implicit): `update_excel_with_sap_data` mutates the caller's
DataFrame in place before writing — the caller's heap slot afterwards
holds the prepared frame, in which every object-dtype column has been
replaced by its opportunistic numeric conversion and every listed date
column by calendar-date (or null) values — so after a merge call on a
frame with convertible columns the caller's table is not the table it
supplied. -/
theorem update_excel_mutates_caller (dateCols : List String) (h : DfHeap) (r : Nat)
    (hr : r < h.length) :
    readRef (update_excel_mutation dateCols h r) r = prepareFrame dateCols (readRef h r) ∧
    (prepareFrame dateCols (readRef h r)).cols = (readRef h r).cols.map (prepareColumn dateCols) ∧
    (∀ col : PdColumn, col.dtype = PdDType.objT →
        prepareColumn dateCols col =
          (if dateCols.contains (toNumericIgnore col).name then
            toDateCol (toNumericIgnore col)
          else toNumericIgnore col)) ∧
    (∀ col : PdColumn, dateCols.contains col.name = true →
        ∀ v ∈ (prepareColumn dateCols col).vals, (∃ d, v = PdValue.dateV d) ∨ v = PdValue.nullV) ∧
    readRef (update_excel_mutation ["Date"]
        [PdFrame.mk [PdColumn.mk "Qty" PdDType.objT [PdValue.strV "10"],
                     PdColumn.mk "Date" PdDType.objT [PdValue.strV "2022-01-01"]]] 0) 0 ≠
      PdFrame.mk [PdColumn.mk "Qty" PdDType.objT [PdValue.strV "10"],
                  PdColumn.mk "Date" PdDType.objT [PdValue.strV "2022-01-01"]] := by
  refine ⟨?_, rfl, ?_, ?_, by decide⟩
  · unfold update_excel_mutation readRef
    exact list_getD_set_self (PdFrame.mk []) h r _ hr
  · intro col hc
    simp [prepareColumn, hc]
  · intro col hc v hv
    have hname : (if col.dtype == PdDType.objT then toNumericIgnore col else col).name = col.name := by
      split
      · unfold toNumericIgnore
        split <;> rfl
      · rfl
    have hpc : prepareColumn dateCols col =
        toDateCol (if col.dtype == PdDType.objT then toNumericIgnore col else col) := by
      show (if dateCols.contains
            (if col.dtype == PdDType.objT then toNumericIgnore col else col).name = true then
          toDateCol (if col.dtype == PdDType.objT then toNumericIgnore col else col)
        else (if col.dtype == PdDType.objT then toNumericIgnore col else col)) = _
      rw [hname, hc]
      simp
    rw [hpc] at hv
    simp only [toDateCol, List.mem_map] at hv
    obtain ⟨x, _, hx⟩ := hv
    subst hx
    exact toDateValue_shape x

/-- Witness for C9 at a concrete heap: the caller's slot is overwritten
with the prepared frame. -/
theorem update_excel_mutates_caller_witness :
    readRef (update_excel_mutation ["Date"]
        [PdFrame.mk [PdColumn.mk "Qty" PdDType.objT [PdValue.strV "10"],
                     PdColumn.mk "Date" PdDType.objT [PdValue.strV "2022-01-01"]]] 0) 0 =
      prepareFrame ["Date"]
        (readRef [PdFrame.mk [PdColumn.mk "Qty" PdDType.objT [PdValue.strV "10"],
                              PdColumn.mk "Date" PdDType.objT [PdValue.strV "2022-01-01"]]] 0) :=
  (update_excel_mutates_caller ["Date"]
    [PdFrame.mk [PdColumn.mk "Qty" PdDType.objT [PdValue.strV "10"],
                 PdColumn.mk "Date" PdDType.objT [PdValue.strV "2022-01-01"]]] 0 (by decide)).1

end SapAuto
